import Mathlib

/-!
Shallow embedding of the imggg generic 2-D geometry library (geom.go).
The library is generic over a numeric scalar type; the claims are settled
at the signed-integer instantiation, modelled with `Int`.  Go integer
division truncates toward zero, which is `Int.tdiv` here.  Where overflow
of the fixed-width scalar matters, the int64 instantiation is modelled
exactly, with two's-complement wrapping made explicit through `wrap64`.
-/

/-- A Point is an X, Y coordinate pair (geom.go, `Point`). -/
structure Point where
  X : Int
  Y : Int
deriving DecidableEq, Repr

/-- A Rectangle contains the points with Min.X <= X < Max.X and
Min.Y <= Y < Max.Y (geom.go, `Rectangle`). -/
structure Rectangle where
  Min : Point
  Max : Point
deriving DecidableEq, Repr

/-- Add returns the vector p+q (geom.go, `Point.Add`). -/
def Point.Add (p q : Point) : Point := ⟨p.X + q.X, p.Y + q.Y⟩

/-- Sub returns the vector p-q (geom.go, `Point.Sub`). -/
def Point.Sub (p q : Point) : Point := ⟨p.X - q.X, p.Y - q.Y⟩

/-- Pt is shorthand for the Point literal (geom.go, `Pt`). -/
def Pt (x y : Int) : Point := ⟨x, y⟩

/-- In reports whether p is in r (geom.go, `Point.In`). -/
def Point.In (p : Point) (r : Rectangle) : Bool :=
  decide (r.Min.X ≤ p.X) && decide (p.X < r.Max.X) &&
  decide (r.Min.Y ≤ p.Y) && decide (p.Y < r.Max.Y)

/-- Dx returns r's width (geom.go, `Rectangle.Dx`). -/
def Rectangle.Dx (r : Rectangle) : Int := r.Max.X - r.Min.X

/-- Dy returns r's height (geom.go, `Rectangle.Dy`). -/
def Rectangle.Dy (r : Rectangle) : Int := r.Max.Y - r.Min.Y

/-- Mod as implemented (geom.go, `Point.Mod`): the source calls `math.Mod`
twice (once even with `w` in place of `h`) but discards both results, so
only the subtraction of `r.Min`, the negative-value corrections and the
re-addition of `r.Min` have any effect; that is what is embedded here. -/
def Point.Mod (p : Point) (r : Rectangle) : Point :=
  let w := r.Dx
  let h := r.Dy
  let p1 := p.Sub r.Min
  let p2 : Point := ⟨if p1.X < 0 then p1.X + w else p1.X,
                     if p1.Y < 0 then p1.Y + h else p1.Y⟩
  p2.Add r.Min

/-- Empty reports whether the rectangle contains no points
(geom.go, `Rectangle.Empty`). -/
def Rectangle.Empty (r : Rectangle) : Bool :=
  decide (r.Min.X ≥ r.Max.X) || decide (r.Min.Y ≥ r.Max.Y)

/-- Eq reports whether r and s contain the same set of points; all empty
rectangles are considered equal (geom.go, `Rectangle.Eq`). -/
def Rectangle.Eq (r s : Rectangle) : Bool :=
  decide (r = s) || (r.Empty && s.Empty)

/-- Intersect returns the largest rectangle contained by both r and s, the
zero rectangle when they do not overlap (geom.go, `Rectangle.Intersect`).
The Go code clamps the four fields of its value-receiver copy of r in
place; the clamped fields are the four lets below. -/
def Rectangle.Intersect (r s : Rectangle) : Rectangle :=
  let minX := if r.Min.X < s.Min.X then s.Min.X else r.Min.X
  let minY := if r.Min.Y < s.Min.Y then s.Min.Y else r.Min.Y
  let maxX := if r.Max.X > s.Max.X then s.Max.X else r.Max.X
  let maxY := if r.Max.Y > s.Max.Y then s.Max.Y else r.Max.Y
  let t : Rectangle := ⟨⟨minX, minY⟩, ⟨maxX, maxY⟩⟩
  if t.Empty then ⟨⟨0, 0⟩, ⟨0, 0⟩⟩ else t

/-- Union returns the smallest rectangle that contains both r and s
(geom.go, `Rectangle.Union`). -/
def Rectangle.Union (r s : Rectangle) : Rectangle :=
  if r.Empty then s
  else if s.Empty then r
  else
    let minX := if r.Min.X > s.Min.X then s.Min.X else r.Min.X
    let minY := if r.Min.Y > s.Min.Y then s.Min.Y else r.Min.Y
    let maxX := if r.Max.X < s.Max.X then s.Max.X else r.Max.X
    let maxY := if r.Max.Y < s.Max.Y then s.Max.Y else r.Max.Y
    ⟨⟨minX, minY⟩, ⟨maxX, maxY⟩⟩

/-- Inset returns the rectangle r inset by n (geom.go, `Rectangle.Inset`).
On an axis whose dimension is below 2n the Go code sets the Min coordinate
to the midpoint and then copies it into the Max coordinate; the Y test
runs after the X fields were reassigned, but it reads only Y fields. -/
def Rectangle.Inset (r : Rectangle) (n : Int) : Rectangle :=
  let minX := if r.Dx < 2 * n then Int.tdiv (r.Min.X + r.Max.X) 2 else r.Min.X + n
  let maxX := if r.Dx < 2 * n then minX else r.Max.X - n
  let minY := if r.Dy < 2 * n then Int.tdiv (r.Min.Y + r.Max.Y) 2 else r.Min.Y + n
  let maxY := if r.Dy < 2 * n then minY else r.Max.Y - n
  ⟨⟨minX, minY⟩, ⟨maxX, maxY⟩⟩

/-- Overlaps reports whether r and s have a non-empty intersection
(geom.go, `Rectangle.Overlaps`). -/
def Rectangle.Overlaps (r s : Rectangle) : Bool :=
  !r.Empty && !s.Empty &&
  decide (r.Min.X < s.Max.X) && decide (s.Min.X < r.Max.X) &&
  decide (r.Min.Y < s.Max.Y) && decide (s.Min.Y < r.Max.Y)

/-- Rect builds the rectangle with corners (x0,y0) and (x1,y1), swapping
coordinates per axis so the result is well-formed (geom.go, `Rect`). -/
def Rect (x0 y0 x1 y1 : Int) : Rectangle :=
  let x0b := if x0 > x1 then x1 else x0
  let x1b := if x0 > x1 then x0 else x1
  let y0b := if y0 > y1 then y1 else y0
  let y1b := if y0 > y1 then y0 else y1
  ⟨⟨x0b, y0b⟩, ⟨x1b, y1b⟩⟩

/-- A Rectangle is well-formed iff Min.X <= Max.X and Min.Y <= Max.Y
(geom.go, comment on `Rectangle`; spec section 3). -/
def Rectangle.WellFormed (r : Rectangle) : Prop :=
  r.Min.X ≤ r.Max.X ∧ r.Min.Y ≤ r.Max.Y

instance (r : Rectangle) : Decidable r.WellFormed := by
  unfold Rectangle.WellFormed
  infer_instance

/-- Spec-side description of Intersect for claim C3: Min is the
componentwise max of the two Mins, Max the componentwise min of the two
Maxes. -/
def interSpec (r s : Rectangle) : Rectangle :=
  ⟨⟨max r.Min.X s.Min.X, max r.Min.Y s.Min.Y⟩,
   ⟨min r.Max.X s.Max.X, min r.Max.Y s.Max.Y⟩⟩

/-- Spec-side description of Inset for claim C7: add n to Min and subtract
n from Max on each axis, except that an axis whose dimension is below 2n
has both of its coordinates set to the midpoint (Min+Max)/2. -/
def insetSpec (r : Rectangle) (n : Int) : Rectangle :=
  ⟨⟨if r.Dx < 2 * n then Int.tdiv (r.Min.X + r.Max.X) 2 else r.Min.X + n,
    if r.Dy < 2 * n then Int.tdiv (r.Min.Y + r.Max.Y) 2 else r.Min.Y + n⟩,
   ⟨if r.Dx < 2 * n then Int.tdiv (r.Min.X + r.Max.X) 2 else r.Max.X - n,
    if r.Dy < 2 * n then Int.tdiv (r.Min.Y + r.Max.Y) 2 else r.Max.Y - n⟩⟩

/-- Two's-complement wrapping of an integer to 64 bits, the overflow
behaviour of Go's int64 arithmetic. -/
def wrap64 (a : Int) : Int :=
  (a + 2 ^ 63) % 2 ^ 64 - 2 ^ 63

/-- An integer representable as a Go int64. -/
def Int64Range (a : Int) : Prop :=
  -(2 ^ 63) ≤ a ∧ a < 2 ^ 63

instance (a : Int) : Decidable (Int64Range a) := by
  unfold Int64Range
  infer_instance

/-- All four coordinates of the rectangle are representable as int64. -/
def Rectangle.InRange64 (r : Rectangle) : Prop :=
  Int64Range r.Min.X ∧ Int64Range r.Min.Y ∧ Int64Range r.Max.X ∧ Int64Range r.Max.Y

instance (r : Rectangle) : Decidable r.InRange64 := by
  unfold Rectangle.InRange64
  infer_instance

/-- Dx at the int64 instantiation: the subtraction wraps
(geom.go, `Rectangle.Dx` over V = int64). -/
def Rectangle.Dx64 (r : Rectangle) : Int :=
  wrap64 (r.Max.X - r.Min.X)

/-- Dy at the int64 instantiation (geom.go, `Rectangle.Dy` over V = int64). -/
def Rectangle.Dy64 (r : Rectangle) : Int :=
  wrap64 (r.Max.Y - r.Min.Y)

/-- Inset at the int64 instantiation (geom.go, `Rectangle.Inset` over
V = int64): identical branch structure to `Rectangle.Inset`, with every
addition, subtraction and doubling wrapped to 64-bit two's complement;
the divisions by 2 cannot overflow and stay Go's truncating division. -/
def Rectangle.Inset64 (r : Rectangle) (n : Int) : Rectangle :=
  let minX := if r.Dx64 < wrap64 (2 * n) then Int.tdiv (wrap64 (r.Min.X + r.Max.X)) 2
              else wrap64 (r.Min.X + n)
  let maxX := if r.Dx64 < wrap64 (2 * n) then minX else wrap64 (r.Max.X - n)
  let minY := if r.Dy64 < wrap64 (2 * n) then Int.tdiv (wrap64 (r.Min.Y + r.Max.Y)) 2
              else wrap64 (r.Min.Y + n)
  let maxY := if r.Dy64 < wrap64 (2 * n) then minY else wrap64 (r.Max.Y - n)
  ⟨⟨minX, minY⟩, ⟨maxX, maxY⟩⟩

/-! Helper lemmas shared by several claims. -/

lemma wrap64_id (a : Int) (h : Int64Range a) : wrap64 a = a := by
  obtain ⟨h1, h2⟩ := h
  unfold wrap64
  omega

lemma ite_lt_right (a b : Int) : (if a < b then b else a) = max a b := by
  rcases lt_or_ge a b with h | h
  · simp [h, max_eq_right h.le]
  · simp [not_lt.mpr h, max_eq_left h]

lemma ite_gt_right (a b : Int) : (if a > b then b else a) = min a b := by
  rcases lt_or_ge b a with h | h
  · simp [h, min_eq_right h.le]
  · simp [not_lt.mpr h, min_eq_left h]

lemma intersect_eq (r s : Rectangle) :
    r.Intersect s =
      if (interSpec r s).Empty = true then ⟨⟨0, 0⟩, ⟨0, 0⟩⟩ else interSpec r s := by
  unfold Rectangle.Intersect interSpec
  simp only [ite_lt_right, ite_gt_right]

lemma empty_true_iff (r : Rectangle) :
    r.Empty = true ↔ (r.Max.X ≤ r.Min.X ∨ r.Max.Y ≤ r.Min.Y) := by
  simp [Rectangle.Empty, ge_iff_le]

lemma empty_false_iff (r : Rectangle) :
    r.Empty = false ↔ (r.Min.X < r.Max.X ∧ r.Min.Y < r.Max.Y) := by
  simp [Rectangle.Empty, ge_iff_le]

lemma overlaps_true_iff (r s : Rectangle) :
    r.Overlaps s = true ↔
      (r.Min.X < r.Max.X ∧ r.Min.Y < r.Max.Y ∧ s.Min.X < s.Max.X ∧ s.Min.Y < s.Max.Y ∧
       r.Min.X < s.Max.X ∧ s.Min.X < r.Max.X ∧ r.Min.Y < s.Max.Y ∧ s.Min.Y < r.Max.Y) := by
  simp [Rectangle.Overlaps, empty_false_iff]
  tauto

lemma union_left_empty (r s : Rectangle) (hr : r.Empty = true) : r.Union s = s := by
  unfold Rectangle.Union
  rw [if_pos hr]

lemma union_right_empty (r s : Rectangle) (hr : r.Empty = false) (hs : s.Empty = true) :
    r.Union s = r := by
  unfold Rectangle.Union
  rw [if_neg (by simp [hr]), if_pos hs]

lemma union_nonempty_eq (r s : Rectangle) (hr : r.Empty = false) (hs : s.Empty = false) :
    r.Union s = ⟨⟨min r.Min.X s.Min.X, min r.Min.Y s.Min.Y⟩,
                 ⟨max r.Max.X s.Max.X, max r.Max.Y s.Max.Y⟩⟩ := by
  unfold Rectangle.Union
  rw [if_neg (by simp [hr]), if_neg (by simp [hs])]
  simp only [ite_lt_right, ite_gt_right]

/-- Claim C1: Mod is documented (geom.go lines 66-67 and the spec) to return
the unique point q inside r with p.X - q.X a multiple of r.Dx and p.Y - q.Y a
multiple of r.Dy.  At p = (5,0) and r = {(0,0),(3,3)} the implementation
returns (5,0), which does not lie in r at all, while the documented answer
(2,0) does lie in r and differs from p by exactly one width: the code
discards the results of its remainder computations and contradicts its own
doc comment. -/
theorem mod_result_escapes_rectangle :
    (Pt 5 0).Mod ⟨⟨0, 0⟩, ⟨3, 3⟩⟩ = Pt 5 0 ∧
    ((Pt 5 0).Mod ⟨⟨0, 0⟩, ⟨3, 3⟩⟩).In ⟨⟨0, 0⟩, ⟨3, 3⟩⟩ = false ∧
    (Pt 2 0).In ⟨⟨0, 0⟩, ⟨3, 3⟩⟩ = true ∧
    (Pt 5 0).X - (Pt 2 0).X = 1 * (Rectangle.mk ⟨0, 0⟩ ⟨3, 3⟩).Dx ∧
    (Pt 5 0).Y - (Pt 2 0).Y = 0 * (Rectangle.mk ⟨0, 0⟩ ⟨3, 3⟩).Dy := by
  decide

/-- Claim C2: Rect(x0,y0,x1,y1) returns a well-formed rectangle for every
input, and Intersect and Union of two well-formed rectangles are
well-formed. -/
theorem constructors_preserve_wellformed :
    (∀ x0 y0 x1 y1 : Int, (Rect x0 y0 x1 y1).WellFormed) ∧
    (∀ r s : Rectangle, r.WellFormed → s.WellFormed →
      (r.Intersect s).WellFormed ∧ (r.Union s).WellFormed) := by
  constructor
  · intro x0 y0 x1 y1
    unfold Rect Rectangle.WellFormed
    constructor <;> dsimp only <;> split_ifs <;> omega
  · intro r s hr hs
    obtain ⟨hr1, hr2⟩ := hr
    obtain ⟨hs1, hs2⟩ := hs
    constructor
    · rw [intersect_eq]
      by_cases h : (interSpec r s).Empty = true
      · rw [if_pos h]
        exact ⟨le_refl 0, le_refl 0⟩
      · rw [if_neg h]
        rw [Bool.not_eq_true, empty_false_iff] at h
        simp only [interSpec] at h ⊢
        unfold Rectangle.WellFormed
        dsimp only
        omega
    · cases hre : r.Empty with
      | true =>
          rw [union_left_empty r s hre]
          exact ⟨hs1, hs2⟩
      | false =>
          cases hse : s.Empty with
          | true =>
              rw [union_right_empty r s hre hse]
              exact ⟨hr1, hr2⟩
          | false =>
              rw [union_nonempty_eq r s hre hse]
              unfold Rectangle.WellFormed
              dsimp only
              omega

/-- Witness for claim C2 at concrete rectangles. -/
theorem constructors_preserve_wellformed_witness :
    (Rect 3 1 0 2).WellFormed ∧
    ((Rect 0 0 2 2).Intersect (Rect 1 1 3 3)).WellFormed ∧
    ((Rect 0 0 2 2).Union (Rect 1 1 3 3)).WellFormed :=
  ⟨constructors_preserve_wellformed.1 3 1 0 2,
   (constructors_preserve_wellformed.2 (Rect 0 0 2 2) (Rect 1 1 3 3)
      (by decide) (by decide)).1,
   (constructors_preserve_wellformed.2 (Rect 0 0 2 2) (Rect 1 1 3 3)
      (by decide) (by decide)).2⟩

/-- Claim C3: for well-formed r and s, Intersect(r, s) is the rectangle with
Min the componentwise max of the Mins and Max the componentwise min of the
Maxes when that rectangle is non-empty, and the all-zero rectangle when it
is empty; concretely Rect(0,0,10,10).Intersect(Rect(5,5,15,15)) =
Rect(5,5,10,10). -/
theorem intersect_componentwise_spec :
    (∀ r s : Rectangle, r.WellFormed → s.WellFormed →
      ((interSpec r s).Empty = false → r.Intersect s = interSpec r s) ∧
      ((interSpec r s).Empty = true → r.Intersect s = ⟨⟨0, 0⟩, ⟨0, 0⟩⟩)) ∧
    (Rect 0 0 10 10).Intersect (Rect 5 5 15 15) = Rect 5 5 10 10 := by
  constructor
  · intro r s _ _
    constructor
    · intro h
      rw [intersect_eq, if_neg (by simp [h])]
    · intro h
      rw [intersect_eq, if_pos h]
  · decide

/-- Witness for claim C3 at concrete rectangles. -/
theorem intersect_componentwise_spec_witness :
    (Rect 0 0 2 2).Intersect (Rect 1 1 3 3) = interSpec (Rect 0 0 2 2) (Rect 1 1 3 3) ∧
    (Rect 0 0 1 1).Intersect (Rect 5 5 6 6) = ⟨⟨0, 0⟩, ⟨0, 0⟩⟩ :=
  ⟨(intersect_componentwise_spec.1 (Rect 0 0 2 2) (Rect 1 1 3 3)
      (by decide) (by decide)).1 (by decide),
   (intersect_componentwise_spec.1 (Rect 0 0 1 1) (Rect 5 5 6 6)
      (by decide) (by decide)).2 (by decide)⟩

/-- Claim C4: Eq(r, s) is true exactly when r and s are structurally equal or
both empty; concretely Rect(5,5,5,5) compares Eq-equal to the zero
rectangle. -/
theorem eq_iff_structural_or_both_empty :
    (∀ r s : Rectangle, r.Eq s = true ↔ (r = s ∨ (r.Empty = true ∧ s.Empty = true))) ∧
    (Rect 5 5 5 5).Eq ⟨⟨0, 0⟩, ⟨0, 0⟩⟩ = true := by
  constructor
  · intro r s
    simp [Rectangle.Eq]
  · decide

/-- Witness for claim C4 at concrete rectangles. -/
theorem eq_iff_structural_or_both_empty_witness :
    (Rectangle.mk ⟨0, 0⟩ ⟨1, 1⟩).Eq ⟨⟨0, 0⟩, ⟨1, 1⟩⟩ = true :=
  (eq_iff_structural_or_both_empty.1 ⟨⟨0, 0⟩, ⟨1, 1⟩⟩ ⟨⟨0, 0⟩, ⟨1, 1⟩⟩).mpr (Or.inl rfl)

/-- Counterexample to claim C5 as stated: the empty rectangle {(1,1),(1,1)}
united with the empty zero rectangle returns the zero rectangle, not the
receiver, so Union(r, e) == r fails structurally for an empty r. -/
theorem union_empty_identity_cex :
    (Rectangle.mk ⟨0, 0⟩ ⟨0, 0⟩).Empty = true ∧
    ¬((Rectangle.mk ⟨1, 1⟩ ⟨1, 1⟩).Union ⟨⟨0, 0⟩, ⟨0, 0⟩⟩ = ⟨⟨1, 1⟩, ⟨1, 1⟩⟩) := by
  decide

/-- Claim C5 amended: for every rectangle r and every empty rectangle e,
Union(r, e) is Eq-equal to r and is structurally equal to r whenever r is
non-empty, and Intersect(r, e) is empty. -/
theorem union_intersect_with_empty :
    ∀ r e : Rectangle, e.Empty = true →
      ((r.Union e).Eq r = true ∧
       (r.Empty = false → r.Union e = r) ∧
       (r.Intersect e).Empty = true) := by
  intro r e he
  refine ⟨?_, ?_, ?_⟩
  · cases hre : r.Empty with
    | true =>
        rw [union_left_empty r e hre]
        simp [Rectangle.Eq, he, hre]
    | false =>
        rw [union_right_empty r e hre he]
        simp [Rectangle.Eq]
  · intro hre
    exact union_right_empty r e hre he
  · rw [intersect_eq]
    by_cases h : (interSpec r e).Empty = true
    · rw [if_pos h]
      decide
    · exfalso
      rw [Bool.not_eq_true, empty_false_iff] at h
      rw [empty_true_iff] at he
      simp only [interSpec] at h
      omega

/-- Witness for amended claim C5 at concrete rectangles. -/
theorem union_intersect_with_empty_witness :
    ((Rect 0 0 2 2).Union ⟨⟨5, 5⟩, ⟨5, 5⟩⟩).Eq (Rect 0 0 2 2) = true ∧
    (Rect 0 0 2 2).Union ⟨⟨5, 5⟩, ⟨5, 5⟩⟩ = Rect 0 0 2 2 ∧
    ((Rect 0 0 2 2).Intersect ⟨⟨5, 5⟩, ⟨5, 5⟩⟩).Empty = true :=
  ⟨(union_intersect_with_empty (Rect 0 0 2 2) ⟨⟨5, 5⟩, ⟨5, 5⟩⟩ (by decide)).1,
   (union_intersect_with_empty (Rect 0 0 2 2) ⟨⟨5, 5⟩, ⟨5, 5⟩⟩ (by decide)).2.1 (by decide),
   (union_intersect_with_empty (Rect 0 0 2 2) ⟨⟨5, 5⟩, ⟨5, 5⟩⟩ (by decide)).2.2⟩

/-- Counterexample to claim C6 as stated: Union is not structurally
commutative on two distinct empty rectangles, each direction returns its
second argument. -/
theorem union_comm_cex :
    ¬((Rectangle.mk ⟨1, 1⟩ ⟨1, 1⟩).Union ⟨⟨0, 0⟩, ⟨0, 0⟩⟩ =
      (Rectangle.mk ⟨0, 0⟩ ⟨0, 0⟩).Union ⟨⟨1, 1⟩, ⟨1, 1⟩⟩) := by
  decide

/-- Claim C6 amended: Intersect is structurally commutative for all
rectangles; Union is commutative up to Eq for all rectangles, and
structurally commutative unless both arguments are empty. -/
theorem intersect_union_commutative :
    ∀ r s : Rectangle,
      r.Intersect s = s.Intersect r ∧
      (r.Union s).Eq (s.Union r) = true ∧
      (¬(r.Empty = true ∧ s.Empty = true) → r.Union s = s.Union r) := by
  intro r s
  have hspec : interSpec r s = interSpec s r := by
    unfold interSpec
    rw [max_comm r.Min.X, max_comm r.Min.Y, min_comm r.Max.X, min_comm r.Max.Y]
  have hcomm : ¬(r.Empty = true ∧ s.Empty = true) → r.Union s = s.Union r := by
    intro hne
    cases hre : r.Empty with
    | true =>
        cases hse : s.Empty with
        | true => exact absurd ⟨hre, hse⟩ hne
        | false =>
            rw [union_left_empty r s hre, union_right_empty s r hse hre]
    | false =>
        cases hse : s.Empty with
        | true =>
            rw [union_right_empty r s hre hse, union_left_empty s r hse]
        | false =>
            rw [union_nonempty_eq r s hre hse, union_nonempty_eq s r hse hre]
            rw [min_comm r.Min.X, min_comm r.Min.Y, max_comm r.Max.X, max_comm r.Max.Y]
  refine ⟨?_, ?_, hcomm⟩
  · rw [intersect_eq r s, intersect_eq s r, hspec]
  · by_cases hboth : r.Empty = true ∧ s.Empty = true
    · obtain ⟨hre, hse⟩ := hboth
      rw [union_left_empty r s hre, union_left_empty s r hse]
      simp [Rectangle.Eq, hre, hse]
    · rw [hcomm hboth]
      simp [Rectangle.Eq]

/-- Witness for amended claim C6 at concrete rectangles. -/
theorem intersect_union_commutative_witness :
    (Rect 0 0 2 2).Intersect (Rect 1 1 3 3) = (Rect 1 1 3 3).Intersect (Rect 0 0 2 2) ∧
    ((Rect 0 0 2 2).Union (Rect 1 1 3 3)).Eq ((Rect 1 1 3 3).Union (Rect 0 0 2 2)) = true ∧
    (Rect 0 0 2 2).Union (Rect 1 1 3 3) = (Rect 1 1 3 3).Union (Rect 0 0 2 2) :=
  ⟨(intersect_union_commutative (Rect 0 0 2 2) (Rect 1 1 3 3)).1,
   (intersect_union_commutative (Rect 0 0 2 2) (Rect 1 1 3 3)).2.1,
   (intersect_union_commutative (Rect 0 0 2 2) (Rect 1 1 3 3)).2.2 (by decide)⟩

/-- Claim C7: Inset(r, n) adds n to Min and subtracts n from Max on each
axis, except that an axis whose dimension is below 2n has both coordinates
set to the midpoint (Min+Max)/2 (truncating division, as in Go); concretely
Rect(0,0,10,10).Inset(6) = Rect(5,5,5,5). -/
theorem inset_componentwise_spec :
    (∀ (r : Rectangle) (n : Int), r.Inset n = insetSpec r n) ∧
    (Rect 0 0 10 10).Inset 6 = Rect 5 5 5 5 := by
  constructor
  · intro r n
    unfold Rectangle.Inset insetSpec
    split_ifs <;> rfl
  · decide

/-- Claim C8: In(p, r) holds exactly when Min.X <= p.X < Max.X and
Min.Y <= p.Y < Max.Y; it is false for every point when r is empty;
concretely Pt(2,2) is in Rect(0,0,5,5) and Pt(5,5) is not. -/
theorem point_in_characterization :
    (∀ (p : Point) (r : Rectangle), p.In r = true ↔
       (r.Min.X ≤ p.X ∧ p.X < r.Max.X ∧ r.Min.Y ≤ p.Y ∧ p.Y < r.Max.Y)) ∧
    (∀ (p : Point) (r : Rectangle), r.Empty = true → p.In r = false) ∧
    (Pt 2 2).In (Rect 0 0 5 5) = true ∧
    (Pt 5 5).In (Rect 0 0 5 5) = false := by
  refine ⟨?_, ?_, by decide, by decide⟩
  · intro p r
    simp [Point.In]
    tauto
  · intro p r h
    rw [empty_true_iff] at h
    simp [Point.In]
    omega

/-- Witness for claim C8 at concrete points and rectangles. -/
theorem point_in_characterization_witness :
    (Pt 1 1).In ⟨⟨0, 0⟩, ⟨2, 2⟩⟩ = true ∧
    (Pt 0 0).In ⟨⟨3, 3⟩, ⟨3, 3⟩⟩ = false :=
  ⟨(point_in_characterization.1 (Pt 1 1) ⟨⟨0, 0⟩, ⟨2, 2⟩⟩).mpr (by decide),
   point_in_characterization.2.1 (Pt 0 0) ⟨⟨3, 3⟩, ⟨3, 3⟩⟩ (by decide)⟩

/-- Claim C10: Overlaps(r, s) is true exactly when Intersect(r, s) is
non-empty, for all rectangles r and s. -/
theorem overlaps_iff_intersection_nonempty :
    ∀ r s : Rectangle, r.Overlaps s = !(r.Intersect s).Empty := by
  intro r s
  rw [Bool.eq_iff_iff, intersect_eq r s]
  by_cases h : (interSpec r s).Empty = true
  · rw [if_pos h]
    rw [empty_true_iff] at h
    simp only [interSpec] at h
    rw [overlaps_true_iff]
    simp [Rectangle.Empty]
    omega
  · rw [if_neg h]
    rw [Bool.not_eq_true, empty_false_iff] at h
    simp only [interSpec] at h
    rw [overlaps_true_iff]
    simp [empty_false_iff, interSpec]
    omega

/-- Counterexample to claim C9 as stated, at the int64 instantiation: the
ill-formed rectangle {(2,0),(0,2)} has negative width, so Inset 0 collapses
its X axis; and even the well-formed full-range rectangle
{(-2^63,0),(2^63-1,1)} is changed by Inset 0, because its width 2^64-1
wraps to -1 and fires the collapse branch, yielding {(0,0),(0,1)}. -/
theorem inset64_zero_cex :
    ¬((Rectangle.mk ⟨2, 0⟩ ⟨0, 2⟩).Inset64 0 = ⟨⟨2, 0⟩, ⟨0, 2⟩⟩) ∧
    ((Rectangle.mk ⟨-(2 ^ 63), 0⟩ ⟨2 ^ 63 - 1, 1⟩).WellFormed ∧
     (Rectangle.mk ⟨-(2 ^ 63), 0⟩ ⟨2 ^ 63 - 1, 1⟩).InRange64 ∧
     (Rectangle.mk ⟨-(2 ^ 63), 0⟩ ⟨2 ^ 63 - 1, 1⟩).Inset64 0 = ⟨⟨0, 0⟩, ⟨0, 1⟩⟩ ∧
     ¬((Rectangle.mk ⟨-(2 ^ 63), 0⟩ ⟨2 ^ 63 - 1, 1⟩).Inset64 0 =
       ⟨⟨-(2 ^ 63), 0⟩, ⟨2 ^ 63 - 1, 1⟩⟩)) := by
  decide

/-- Claim C9 amended, at the int64 instantiation with wrapping arithmetic:
Inset(r, 0) == r for every rectangle r with int64-representable coordinates
whose computed width Dx() and computed height Dy() are non-negative; in
particular for every such well-formed rectangle whose true width and height
are below 2^63. -/
theorem inset64_zero_identity :
    ∀ r : Rectangle, r.InRange64 →
      ((0 ≤ r.Dx64 → 0 ≤ r.Dy64 → r.Inset64 0 = r) ∧
       (r.WellFormed → r.Dx < 2 ^ 63 → r.Dy < 2 ^ 63 → r.Inset64 0 = r)) := by
  intro r hr
  obtain ⟨h1, h2, h3, h4⟩ := hr
  have hmain : 0 ≤ r.Dx64 → 0 ≤ r.Dy64 → r.Inset64 0 = r := by
    intro hdx hdy
    have hz : wrap64 (2 * 0) = 0 := by decide
    unfold Rectangle.Inset64
    rw [hz]
    simp only [if_neg (by omega : ¬(r.Dx64 < 0)), if_neg (by omega : ¬(r.Dy64 < 0)),
      add_zero, sub_zero, wrap64_id _ h1, wrap64_id _ h2, wrap64_id _ h3, wrap64_id _ h4]
  refine ⟨hmain, ?_⟩
  intro hwf hdx hdy
  obtain ⟨hw1, hw2⟩ := hwf
  have hdx2 : r.Max.X - r.Min.X < 2 ^ 63 := hdx
  have hdy2 : r.Max.Y - r.Min.Y < 2 ^ 63 := hdy
  have hw1b : r.Min.X ≤ r.Max.X := hw1
  have hw2b : r.Min.Y ≤ r.Max.Y := hw2
  apply hmain
  · have hx : r.Dx64 = r.Max.X - r.Min.X :=
      wrap64_id _ ⟨by omega, by omega⟩
    omega
  · have hy : r.Dy64 = r.Max.Y - r.Min.Y :=
      wrap64_id _ ⟨by omega, by omega⟩
    omega

/-- Witness for amended claim C9 at concrete rectangles, one through each
set of hypotheses. -/
theorem inset64_zero_identity_witness :
    (Rect 0 0 2 2).Inset64 0 = Rect 0 0 2 2 ∧
    (Rect 0 0 3 3).Inset64 0 = Rect 0 0 3 3 :=
  ⟨(inset64_zero_identity (Rect 0 0 2 2) (by decide)).1 (by decide) (by decide),
   (inset64_zero_identity (Rect 0 0 3 3) (by decide)).2 (by decide) (by decide) (by decide)⟩
